import Mathlib

/-!
Verification of the detection deploy pipeline (`src/predict.py`).

The embedding below translates the pure content of the source:

* `SUPPORT_MODELS`, `Config.check_model`, `Config.__init__`
* `create_inputs`
* `Detector.postprocess` and the decode tail of `Detector.predict`
* `load_predictor` / `Detector.__init__` construction-time checks
* the raw-output fetch logic of the two execution backends
* `DetectorSOLOv2.predict`

Numeric tensor entries are modelled as rationals (`ℚ`), image shapes as
integer pairs, numpy arrays of box rows as `List BoxRow`, and mask /
image tensors as opaque type parameters.  The external routines
(`utils.preprocess`, `utils.visualize.lmk2out`, the paddle engine) are
out of scope and appear only as parameters or spec-modelled data.
-/

namespace Predict

/-- Python substring test helper: does the character list start with `needle`?
Models the inner comparison used by the membership test `needle in hay`. -/
def charsStartWith : List Char → List Char → Bool
  | [], _ => true
  | _ :: _, [] => false
  | a :: as, b :: bs => a == b && charsStartWith as bs

/-- Python substring containment `needle in hay` on character lists. -/
def charsContain (needle : List Char) : List Char → Bool
  | [] => needle.isEmpty
  | c :: cs => charsStartWith needle (c :: cs) || charsContain needle cs

/-- Python string containment `needle in hay` as used by
`Config.check_model` and `create_inputs`. -/
def pyIn (needle hay : String) : Bool :=
  charsContain needle.data hay.data

/-- Global dictionary `SUPPORT_MODELS` (src/predict.py lines 36-46).
The Python value is a set; the element order below is irrelevant to
every use (only membership is ever consulted). -/
def SUPPORT_MODELS : List String :=
  ["YOLO", "SSD", "RetinaNet", "EfficientDet", "RCNN", "Face", "TTF", "FCOS", "SOLOv2"]

/-- The key set of `infer_cfg.yml` read by `Config.__init__`
(src/predict.py lines 334-350).  Preprocess step descriptors are kept
abstract (their parameters are consumed by the out-of-scope
preprocessing pipeline), represented by their type names. -/
structure YmlConf where
  arch : String
  preprocess : List String
  use_python_inference : Bool
  min_subgraph_size : ℤ
  label_list : List String
  mask_resolution : Option ℤ
  with_lmk : Option Bool
deriving DecidableEq

/-- `Config.check_model` (src/predict.py lines 353-362): scans
`SUPPORT_MODELS` for a member that is a substring of the arch string,
otherwise raises `ValueError`. -/
def check_model (yml : YmlConf) : Except String Bool :=
  if SUPPORT_MODELS.any (fun support_model => pyIn support_model yml.arch) then
    Except.ok true
  else
    Except.error ("Unsupported arch: " ++ yml.arch)

/-- The configuration object built by `Config.__init__`
(src/predict.py lines 334-351). -/
structure Config where
  arch : String
  preprocess_infos : List String
  use_python_inference : Bool
  min_subgraph_size : ℤ
  labels : List String
  mask_resolution : Option ℤ
  with_lmk : Option Bool
deriving DecidableEq

/-- `Config.__init__` (src/predict.py lines 334-351): validates the arch
via `check_model`, then copies the fields.  (`print_config` only logs.) -/
def configInit (yml : YmlConf) : Except String Config :=
  match check_model yml with
  | Except.error e => Except.error e
  | Except.ok _ =>
      Except.ok
        { arch := yml.arch
          preprocess_infos := yml.preprocess
          use_python_inference := yml.use_python_inference
          min_subgraph_size := yml.min_subgraph_size
          labels := yml.label_list
          mask_resolution := yml.mask_resolution
          with_lmk := yml.with_lmk }

/-- Modelled from the spec: the `im_info` dictionary (ImageMeta) produced
by the external `utils.preprocess` pipeline, which is not under `src/`.
Per spec section 3, origin shape is the `(H, W)` pair, resize shape and
the optional pad shape likewise, and `scale` is the `(scale_x, scale_y)`
factor pair. -/
structure ImInfo where
  origin_shape : ℤ × ℤ
  resize_shape : ℤ × ℤ
  pad_shape : Option (ℤ × ℤ)
  scale : ℚ × ℚ
deriving DecidableEq

/-- One raw box row `[class_id, score, x_min, y_min, x_max, y_max]`
(docstring of `Detector.predict`, src/predict.py lines 124-125). -/
structure BoxRow where
  class_id : ℚ
  score : ℚ
  xmin : ℚ
  ymin : ℚ
  xmax : ℚ
  ymax : ℚ
deriving DecidableEq

/-- The in-place coordinate update of `Detector.postprocess` for the
SSD/Face branch (src/predict.py lines 94-99): `w, h = im_info['origin_shape']`
unpacks the `(H, W)` pair (so `w` holds H and `h` holds W), then columns
2 and 4 are multiplied by `h` and columns 3 and 5 by `w`. -/
def scaleRow (osh : ℤ × ℤ) (r : BoxRow) : BoxRow :=
  let w := osh.1
  let h := osh.2
  { r with
      xmin := r.xmin * (h : ℚ)
      ymin := r.ymin * (w : ℚ)
      xmax := r.xmax * (h : ℚ)
      ymax := r.ymax * (w : ℚ) }

/-- numpy boolean-mask row selection `np_masks[expect_boxes, :, :, :]`
(src/predict.py line 109): keep the rows of `bs` at the positions where
the predicate holds of the corresponding row of `as`.  (Defined for
aligned inputs; numpy additionally requires equal lengths.) -/
def filterAligned (p : BoxRow → Bool) : List BoxRow → List α → List α
  | _, [] => []
  | [], _ => []
  | a :: as, b :: bs => if p a then b :: filterAligned p as bs else filterAligned p as bs

/-- The score/sentinel row filter of `Detector.postprocess`
(src/predict.py line 100): `(np_boxes[:, 1] > threshold) & (np_boxes[:, 0] > -1)`. -/
def expectBox (threshold : ℚ) (r : BoxRow) : Bool :=
  decide (threshold < r.score) && decide ((-1 : ℚ) < r.class_id)

/-- The dictionary returned by `Detector.postprocess` / `Detector.predict`:
a `boxes` entry, an optional `masks` entry, an optional `landmark` entry. -/
structure PostResult (M R : Type) where
  boxes : List BoxRow
  masks : Option (List M)
  landmark : Option R
deriving DecidableEq

/-- `Detector.postprocess` (src/predict.py lines 88-111) as a function of
its inputs.  `lmk2out` stands for the external landmark decode routine of
`utils.visualize` (out of scope); it is applied to the boxes as passed in
(line 92 runs before the SSD/Face scaling of lines 94-99).  Mask rows are
mask tensors of an abstract type `M`.  The console printing loop has no
effect on the returned value and is omitted. -/
def postprocessResults (lmk2out : List BoxRow → L → ImInfo → ℚ → R)
    (cfg : Config) (np_boxes : List BoxRow) (np_masks : Option (List M))
    (np_lmk : Option L) (im_info : ImInfo) (threshold : ℚ) : PostResult M R :=
  let landmark := np_lmk.map (fun l => lmk2out np_boxes l im_info threshold)
  let np_boxes1 :=
    if cfg.arch = "SSD" ∨ cfg.arch = "Face" then
      np_boxes.map (scaleRow im_info.origin_shape)
    else np_boxes
  { boxes := np_boxes1.filter (expectBox threshold)
    masks := np_masks.map (filterAligned (expectBox threshold) np_boxes1)
    landmark := landmark }

/-- Caller-visible contents of the `np_boxes` / `np_masks` argument
arrays after `Detector.postprocess` returns.  The augmented assignments
`np_boxes[:, k] *= ...` of the SSD/Face branch (src/predict.py lines
96-99) write in place into the caller's array; every other statement
(`np_boxes = np_boxes[expect_boxes, :]`, `np_masks = np_masks[...]`)
rebinds the local name to a fresh fancy-indexing copy and leaves the
argument arrays untouched. -/
def postprocessCallerState (cfg : Config) (np_boxes : List BoxRow)
    (np_masks : Option (List M)) (im_info : ImInfo) :
    List BoxRow × Option (List M) :=
  (if cfg.arch = "SSD" ∨ cfg.arch = "Face" then
      np_boxes.map (scaleRow im_info.origin_shape)
    else np_boxes,
   np_masks)

/-- The decode tail of `Detector.predict` (src/predict.py lines 202-209):
when the element count of `np_boxes` (shape `[N, 6]`, so `N * 6`) is
below 6 the explicit empty marker `{'boxes': np.array([])}` is returned,
otherwise `postprocess` runs. -/
def predictResults (lmk2out : List BoxRow → L → ImInfo → ℚ → R)
    (cfg : Config) (np_boxes : List BoxRow) (np_masks : Option (List M))
    (np_lmk : Option L) (im_info : ImInfo) (threshold : ℚ) : PostResult M R :=
  if np_boxes.length * 6 < 6 then
    { boxes := [], masks := none, landmark := none }
  else
    postprocessResults lmk2out cfg np_boxes np_masks np_lmk im_info threshold

/-- One tensor of the input feed dictionary built by `create_inputs`:
the preprocessed image (an opaque tensor `T`), an `int32` vector, or a
`float32` vector. -/
inductive InputVal (T : Type) where
  | img (t : T)
  | ints (l : List ℤ)
  | floats (l : List ℚ)
deriving DecidableEq

/-- `create_inputs` (src/predict.py lines 289-325): builds the named
input feed for the architecture family, dispatching on substring
containment in the source's `if/elif` order. -/
def create_inputs (im : T) (im_info : ImInfo) (model_arch : String) :
    List (String × InputVal T) :=
  let origin_shape : List ℤ := [im_info.origin_shape.1, im_info.origin_shape.2]
  let resize_shape : List ℤ := [im_info.resize_shape.1, im_info.resize_shape.2]
  let pad_shape : List ℤ :=
    match im_info.pad_shape with
    | some p => [p.1, p.2]
    | none => resize_shape
  let scale_x := im_info.scale.1
  let scale_y := im_info.scale.2
  ("image", InputVal.img im) ::
    (if pyIn "YOLO" model_arch then
      [("im_size", InputVal.ints origin_shape)]
    else if pyIn "RetinaNet" model_arch || pyIn "EfficientDet" model_arch then
      [("im_info", InputVal.floats (pad_shape.map (fun i => (i : ℚ)) ++ [scale_x]))]
    else if pyIn "RCNN" model_arch || pyIn "FCOS" model_arch then
      [("im_info", InputVal.floats (pad_shape.map (fun i => (i : ℚ)) ++ [scale_x])),
       ("im_shape", InputVal.floats (origin_shape.map (fun i => (i : ℚ)) ++ [1]))]
    else if pyIn "TTF" model_arch then
      [("scale_factor", InputVal.floats [scale_x, scale_y, scale_x, scale_y])]
    else if pyIn "SOLOv2" model_arch then
      [("im_info", InputVal.floats (resize_shape.map (fun i => (i : ℚ)) ++ [scale_x]))]
    else [])

/-- The TensorRT precision table of `load_predictor`
(src/predict.py lines 395-399), keyed by run mode. -/
def precisionMap : List (String × String) :=
  [("trt_int8", "Int8"), ("trt_fp32", "Float32"), ("trt_fp16", "Half")]

/-- The analysis-predictor configuration assembled by `load_predictor`
once the construction-time checks pass: GPU flag and, when the run mode
is a TensorRT mode, the exact requested precision. -/
structure PredictorConf where
  use_gpu : Bool
  trt_precision : Option String
deriving DecidableEq

/-- `load_predictor` (src/predict.py lines 374-429): raises `ValueError`
when a non-`fluid` run mode is requested without `use_gpu`, and when the
unsupported `trt_int8` mode is requested; otherwise builds the predictor
configuration, enabling a TensorRT engine with exactly the requested
precision when the run mode is in the precision table. -/
def load_predictor (run_mode : String) (use_gpu : Bool) :
    Except String PredictorConf :=
  if ¬use_gpu ∧ ¬(run_mode = "fluid") then
    Except.error ("Predict by TensorRT mode: " ++ run_mode ++ ", expect use_gpu==True")
  else if run_mode = "trt_int8" then
    Except.error "TensorRT int8 mode is not supported now, please use trt_fp32 or trt_fp16 instead."
  else
    Except.ok { use_gpu := use_gpu, trt_precision := precisionMap.lookup run_mode }

/-- The backend handle owned by a `Detector` after `__init__`. -/
inductive Backend where
  | executor
  | predictor (conf : PredictorConf)
deriving DecidableEq

/-- `Detector.__init__` (src/predict.py lines 59-74): the interpreted
executor path always constructs; the zero-copy path runs the
`load_predictor` construction-time checks.  No image is involved. -/
def detectorInit (cfg : Config) (run_mode : String) (use_gpu : Bool) :
    Except String Backend :=
  if cfg.use_python_inference then
    Except.ok Backend.executor
  else
    match load_predictor run_mode use_gpu with
    | Except.error e => Except.error e
    | Except.ok conf => Except.ok (Backend.predictor conf)

/-- The raw output set fetched by one `Detector.predict` inference pass:
boxes tensor, optional masks tensor, optional
(face_index, landmark, prior_boxes) triple. -/
structure RawOutputSet (T : Type) where
  boxes : T
  masks : Option T
  lmk : Option (T × T × T)
deriving DecidableEq

/-- Raw-output fetch of the interpreted-executor branch of
`Detector.predict` (src/predict.py lines 131-148): `outs[0]` is the
boxes tensor; `outs[1]` is fetched as masks when `mask_resolution` is
set; no landmark tensor is ever fetched on this branch. -/
def fetchOutputsExecutor (cfg : Config) (outs : ℕ → T) : RawOutputSet T :=
  { boxes := outs 0
    masks := if cfg.mask_resolution.isSome then some (outs 1) else none
    lmk := none }

/-- Raw-output fetch of the zero-copy predictor branch of
`Detector.predict` (src/predict.py lines 176-196): position 0 is boxes;
position 1 is masks when `mask_resolution` is set; positions 1, 2, 3 are
the (face_index, landmark, prior_boxes) triple when `with_lmk` is true. -/
def fetchOutputsZeroCopy (cfg : Config) (outs : ℕ → T) : RawOutputSet T :=
  { boxes := outs 0
    masks := if cfg.mask_resolution.isSome then some (outs 1) else none
    lmk :=
      if cfg.with_lmk = some true then some (outs 1, outs 2, outs 3) else none }

/-- The dictionary returned by `DetectorSOLOv2.predict`. -/
structure SoloResult (T : Type) where
  segm : T
  label : T
  score : T
deriving DecidableEq

/-- `DetectorSOLOv2.predict` (src/predict.py lines 228-286): fetches the
label / score / segmentation tensors at positions 0, 1, 2 and, outside
benchmark mode, returns them as `dict(segm=..., label=..., score=...)`
with no further processing; in benchmark mode the empty placeholder
(`none` here) is returned.  The `threshold` argument is accepted but
unused. -/
def solov2Predict (outs : ℕ → T) (threshold : ℚ) (run_benchmark : Bool) :
    Option (SoloResult T) :=
  if run_benchmark then none
  else some { segm := outs 2, label := outs 0, score := outs 1 }

/-! ### Helper lemmas -/

theorem charsStartWith_iff (a b : List Char) :
    charsStartWith a b = true ↔ ∃ t, a ++ t = b := by
  induction a generalizing b with
  | nil => simp [charsStartWith]
  | cons x xs ih =>
    cases b with
    | nil =>
      simp [charsStartWith]
    | cons y ys =>
      simp only [charsStartWith, Bool.and_eq_true, beq_iff_eq, ih, List.cons_append,
        List.cons.injEq]
      constructor
      · rintro ⟨rfl, t, rfl⟩
        exact ⟨t, rfl, rfl⟩
      · rintro ⟨t, rfl, rfl⟩
        exact ⟨rfl, t, rfl⟩

theorem charsContain_iff (n h : List Char) :
    charsContain n h = true ↔ ∃ u v, u ++ n ++ v = h := by
  induction h with
  | nil =>
    simp [charsContain, List.isEmpty_iff, List.append_eq_nil]
  | cons c cs ih =>
    simp only [charsContain, Bool.or_eq_true, charsStartWith_iff, ih]
    constructor
    · rintro (⟨t, ht⟩ | ⟨u, v, huv⟩)
      · exact ⟨[], t, by simpa using ht⟩
      · exact ⟨c :: u, v, by simp [huv]⟩
    · rintro ⟨u, v, huv⟩
      cases u with
      | nil =>
        exact Or.inl ⟨v, by simpa using huv⟩
      | cons d ds =>
        obtain ⟨rfl, hds⟩ : d = c ∧ ds ++ n ++ v = cs := by
          simpa using huv
        exact Or.inr ⟨ds, v, hds⟩

theorem pyIn_iff (needle hay : String) :
    pyIn needle hay = true ↔ ∃ u v, u ++ needle.data ++ v = hay.data :=
  charsContain_iff needle.data hay.data

/-- `expectBox` only reads the score and class columns, which the
SSD/Face in-place scaling leaves untouched. -/
theorem expectBox_scaleRow (t : ℚ) (osh : ℤ × ℤ) (r : BoxRow) :
    expectBox t (scaleRow osh r) = expectBox t r := rfl

theorem filter_map_eq (f : α → β) (p : β → Bool) (l : List α) :
    (l.map f).filter p = (l.filter (fun a => p (f a))).map f := by
  induction l with
  | nil => rfl
  | cons a as ih =>
    by_cases h : p (f a) <;> simp [h, ih]

theorem filterAligned_zip (p : BoxRow → Bool) (as : List BoxRow) (bs : List α) :
    filterAligned p as bs = ((as.zip bs).filter (fun x => p x.1)).map Prod.snd := by
  induction as generalizing bs with
  | nil => cases bs <;> rfl
  | cons a as ih =>
    cases bs with
    | nil => rfl
    | cons b bs =>
      by_cases h : p a <;> simp [filterAligned, h, ih]

theorem filterAligned_map_left (p : BoxRow → Bool) (f : BoxRow → BoxRow)
    (hp : ∀ r, p (f r) = p r) (as : List BoxRow) (bs : List α) :
    filterAligned p (as.map f) bs = filterAligned p as bs := by
  induction as generalizing bs with
  | nil => rfl
  | cons a as ih =>
    cases bs with
    | nil => rfl
    | cons b bs =>
      simp only [List.map_cons, filterAligned, hp, ih]

theorem filter_eq_nil_of (p : α → Bool) (l : List α)
    (h : ∀ a ∈ l, p a = false) : l.filter p = [] := by
  induction l with
  | nil => rfl
  | cons a as ih =>
    have ha := h a (by simp)
    simp [List.filter_cons, ha, ih (fun x hx => h x (by simp [hx]))]

/-- The `boxes` entry of `postprocessResults`: the scaled (for SSD/Face)
rows that pass the score/sentinel filter, characterized on the raw rows. -/
theorem postprocess_boxes_eq (lmk2out : List BoxRow → L → ImInfo → ℚ → R)
    (cfg : Config) (np_boxes : List BoxRow) (np_masks : Option (List M))
    (np_lmk : Option L) (info : ImInfo) (t : ℚ) :
    (postprocessResults lmk2out cfg np_boxes np_masks np_lmk info t).boxes =
      (np_boxes.filter (expectBox t)).map
        (fun r => if cfg.arch = "SSD" ∨ cfg.arch = "Face" then
          scaleRow info.origin_shape r else r) := by
  unfold postprocessResults
  by_cases h : cfg.arch = "SSD" ∨ cfg.arch = "Face"
  · simp only [h, if_true, if_pos]
    rw [filter_map_eq]
    simp [expectBox_scaleRow]
  · simp only [h, if_false, if_neg, not_false_iff]
    simp

/-- The `masks` entry of `postprocessResults`: rows of the mask tensor at
the positions of the raw box rows that pass the score/sentinel filter. -/
theorem postprocess_masks_eq (lmk2out : List BoxRow → L → ImInfo → ℚ → R)
    (cfg : Config) (np_boxes : List BoxRow) (masks : List M)
    (np_lmk : Option L) (info : ImInfo) (t : ℚ) :
    (postprocessResults lmk2out cfg np_boxes (some masks) np_lmk info t).masks =
      some (((np_boxes.zip masks).filter (fun x => expectBox t x.1)).map Prod.snd) := by
  unfold postprocessResults
  by_cases h : cfg.arch = "SSD" ∨ cfg.arch = "Face"
  · simp only [h, if_true, if_pos, Option.map_some']
    rw [filterAligned_map_left _ _ (expectBox_scaleRow t info.origin_shape) np_boxes masks,
      filterAligned_zip]
  · simp only [h, if_false, if_neg, not_false_iff, Option.map_some']
    rw [filterAligned_zip]

/-! ### Sample data used by the witness theorems -/

/-- Trivial stand-in for the external landmark-decode routine. -/
def lmkTriv : List BoxRow → Unit → ImInfo → ℚ → Unit := fun _ _ _ _ => ()

/-- Sample image metadata with origin shape H = 480, W = 640. -/
def infoW : ImInfo :=
  { origin_shape := (480, 640), resize_shape := (608, 608),
    pad_shape := none, scale := (1, 1) }

/-- Sample YOLO-family configuration. -/
def cfgYOLO : Config :=
  { arch := "YOLOv3", preprocess_infos := [], use_python_inference := false,
    min_subgraph_size := 3, labels := [], mask_resolution := some 14,
    with_lmk := none }

/-- Sample SSD configuration. -/
def cfgSSD : Config :=
  { arch := "SSD", preprocess_infos := [], use_python_inference := false,
    min_subgraph_size := 3, labels := [], mask_resolution := none,
    with_lmk := none }

/-- A box row above a threshold of 1/2 with a valid class. -/
def rowKeep : BoxRow := { class_id := 0, score := 3/4, xmin := 10, ymin := 20, xmax := 30, ymax := 40 }

/-- A sentinel box row (class_id = -1). -/
def rowDrop : BoxRow := { class_id := -1, score := 9/10, xmin := 0, ymin := 0, xmax := 0, ymax := 0 }

/-- A box row with resize-relative coordinates in [0, 1]. -/
def rowHalf : BoxRow := { class_id := 0, score := 1, xmin := 1/2, ymin := 1/2, xmax := 1, ymax := 1 }

/-! ### Claims -/

/-- Claim C1: for every detection-family raw output, `Detector.postprocess`
keeps exactly the box rows whose score is strictly greater than the
threshold and whose class_id is strictly greater than -1 (so a row with
score equal to the threshold is excluded), and when a mask tensor is
present it keeps exactly the mask rows at the same indices as the kept
box rows. -/
theorem claim1_postprocess_row_filter {M L R : Type}
    (lmk2out : List BoxRow → L → ImInfo → ℚ → R)
    (cfg : Config) (np_boxes : List BoxRow) (masks : List M)
    (np_lmk : Option L) (info : ImInfo) (t : ℚ)
    (hlen : masks.length = np_boxes.length) :
    (∀ r ∈ (postprocessResults lmk2out cfg np_boxes (some masks) np_lmk info t).boxes,
        t < r.score ∧ (-1 : ℚ) < r.class_id) ∧
    (postprocessResults lmk2out cfg np_boxes (some masks) np_lmk info t).boxes =
      (np_boxes.filter (expectBox t)).map
        (fun r => if cfg.arch = "SSD" ∨ cfg.arch = "Face" then
          scaleRow info.origin_shape r else r) ∧
    (postprocessResults lmk2out cfg np_boxes (some masks) np_lmk info t).masks =
      some (((np_boxes.zip masks).filter (fun x => expectBox t x.1)).map Prod.snd) := by
  refine ⟨?_, postprocess_boxes_eq lmk2out cfg np_boxes (some masks) np_lmk info t,
    postprocess_masks_eq lmk2out cfg np_boxes masks np_lmk info t⟩
  intro r hr
  rw [postprocess_boxes_eq] at hr
  simp only [List.mem_map, List.mem_filter] at hr
  obtain ⟨r₀, ⟨_, hp⟩, rfl⟩ := hr
  have hp' : t < r₀.score ∧ (-1 : ℚ) < r₀.class_id := by
    simpa [expectBox] using hp
  by_cases hA : cfg.arch = "SSD" ∨ cfg.arch = "Face" <;>
    simpa [hA, scaleRow] using hp'

/-- Claim C1 witness: a concrete two-row output under a YOLO config with
an aligned two-row mask tensor at threshold 1/2. -/
theorem claim1_witness :
    (∀ r ∈ (postprocessResults lmkTriv cfgYOLO [rowKeep, rowDrop] (some [(10 : ℕ), 20])
        (none : Option Unit) infoW (1/2)).boxes,
        (1/2 : ℚ) < r.score ∧ (-1 : ℚ) < r.class_id) ∧
    (postprocessResults lmkTriv cfgYOLO [rowKeep, rowDrop] (some [(10 : ℕ), 20])
        (none : Option Unit) infoW (1/2)).boxes =
      (List.filter (expectBox (1/2)) [rowKeep, rowDrop]).map
        (fun r => if cfgYOLO.arch = "SSD" ∨ cfgYOLO.arch = "Face" then
          scaleRow infoW.origin_shape r else r) ∧
    (postprocessResults lmkTriv cfgYOLO [rowKeep, rowDrop] (some [(10 : ℕ), 20])
        (none : Option Unit) infoW (1/2)).masks =
      some (((List.zip [rowKeep, rowDrop] [(10 : ℕ), 20]).filter
        (fun x => expectBox (1/2) x.1)).map Prod.snd) :=
  claim1_postprocess_row_filter lmkTriv cfgYOLO [rowKeep, rowDrop] [(10 : ℕ), 20]
    (none : Option Unit) infoW (1/2) rfl

/-- Claim C2: for the SSD and Face families `Detector.postprocess` scales
each returned row's x coordinates by the origin-image width `W` and its y
coordinates by the origin-image height `H` (the `w, h = origin_shape`
unpacking names the height `w` and the width `h`); for every other
family the coordinates are returned unscaled. -/
theorem claim2_ssd_face_coordinate_scaling {L R : Type}
    (lmk2out : List BoxRow → L → ImInfo → ℚ → R)
    (cfg : Config) (np_boxes : List BoxRow) (np_lmk : Option L)
    (info : ImInfo) (t : ℚ) (H W : ℤ) (hsh : info.origin_shape = (H, W)) :
    ((cfg.arch = "SSD" ∨ cfg.arch = "Face") →
      (postprocessResults lmk2out cfg np_boxes (none : Option (List Unit))
          np_lmk info t).boxes =
        (np_boxes.filter (expectBox t)).map (fun r =>
          { r with
              xmin := r.xmin * (W : ℚ), ymin := r.ymin * (H : ℚ),
              xmax := r.xmax * (W : ℚ), ymax := r.ymax * (H : ℚ) })) ∧
    (¬(cfg.arch = "SSD" ∨ cfg.arch = "Face") →
      (postprocessResults lmk2out cfg np_boxes (none : Option (List Unit))
          np_lmk info t).boxes = np_boxes.filter (expectBox t)) := by
  constructor
  · intro hA
    rw [postprocess_boxes_eq]
    refine List.map_congr_left ?_
    intro r _
    simp [hA, scaleRow, hsh]
  · intro hA
    rw [postprocess_boxes_eq]
    conv_rhs => rw [← List.map_id (np_boxes.filter (expectBox t))]
    refine List.map_congr_left ?_
    intro r _
    simp [hA]

/-- Claim C2 witness: under an SSD config with origin shape H = 480,
W = 640, the normalized row (1/2, 1/2, 1, 1) decodes to pixel
coordinates (320, 240, 640, 480). -/
theorem claim2_witness :
    (postprocessResults lmkTriv cfgSSD [rowHalf] (none : Option (List Unit))
        (none : Option Unit) infoW 0).boxes =
      [{ class_id := 0, score := 1, xmin := 320, ymin := 240, xmax := 640, ymax := 480 }] := by
  have h := (claim2_ssd_face_coordinate_scaling lmkTriv cfgSSD [rowHalf]
    (none : Option Unit) infoW 0 480 640 rfl).1 (Or.inl rfl)
  rw [h]
  norm_num [rowHalf, expectBox]

/-- Claim C3: for every raw box array in which every row carries the
class_id = -1 sentinel, and for any threshold, the decode tail of
`Detector.predict` returns a result whose `boxes` entry is empty; the
decode is a total function, so no exception arises and zero detections
is a valid non-error result. -/
theorem claim3_all_sentinel_empty {M L R : Type}
    (lmk2out : List BoxRow → L → ImInfo → ℚ → R)
    (cfg : Config) (np_boxes : List BoxRow) (np_masks : Option (List M))
    (np_lmk : Option L) (info : ImInfo) (t : ℚ)
    (h : ∀ r ∈ np_boxes, r.class_id = -1) :
    (predictResults lmk2out cfg np_boxes np_masks np_lmk info t).boxes = [] := by
  unfold predictResults
  by_cases hn : np_boxes.length * 6 < 6
  · simp [hn]
  · simp only [hn, if_false, if_neg, not_false_iff]
    rw [postprocess_boxes_eq]
    rw [filter_eq_nil_of _ _ ?_]
    · rfl
    · intro r hr
      simp [expectBox, h r hr]

/-- Claim C3 witness: a one-row all-sentinel output decodes to an empty
`boxes` entry. -/
theorem claim3_witness :
    (predictResults lmkTriv cfgYOLO [rowDrop] (none : Option (List ℕ))
        (none : Option Unit) infoW (1/2)).boxes = [] :=
  claim3_all_sentinel_empty lmkTriv cfgYOLO [rowDrop] (none : Option (List ℕ))
    (none : Option Unit) infoW (1/2) (by decide)

/-- Claim C4: `Config` construction succeeds if and only if the
architecture string contains at least one registered family substring
from `SUPPORT_MODELS`; matching is substring containment. -/
theorem claim4_config_arch_validation (yml : YmlConf) :
    (configInit yml).isOk = true ↔
      ∃ s ∈ SUPPORT_MODELS, ∃ u v, u ++ s.data ++ v = yml.arch.data := by
  have h1 : (configInit yml).isOk =
      SUPPORT_MODELS.any (fun support_model => pyIn support_model yml.arch) := by
    rcases hb : SUPPORT_MODELS.any (fun support_model => pyIn support_model yml.arch) with _ | _ <;>
      simp [configInit, check_model, hb, Except.isOk, Except.toBool]
  rw [h1, List.any_eq_true]
  constructor
  · rintro ⟨s, hs, hp⟩
    exact ⟨s, hs, (pyIn_iff s yml.arch).mp hp⟩
  · rintro ⟨s, hs, hc⟩
    exact ⟨s, hs, (pyIn_iff s yml.arch).mpr hc⟩

/-- Claim C5: `create_inputs` is a pure function of (tensor, ImageMeta,
architecture) dispatching on family substrings in the source's fixed
priority order: YOLO gets the image plus the integer origin-shape tensor;
RetinaNet/EfficientDet the image plus float [pad_h, pad_w, scale];
RCNN/FCOS those plus float [origin_h, origin_w, 1.0]; TTF the image plus
float [scale_x, scale_y, scale_x, scale_y]; SOLOv2 the image plus float
[resize_h, resize_w, scale]. -/
theorem claim5_create_inputs_families {T : Type} (im : T) (info : ImInfo)
    (arch : String) :
    (pyIn "YOLO" arch = true →
      create_inputs im info arch =
        [("image", InputVal.img im),
         ("im_size", InputVal.ints [info.origin_shape.1, info.origin_shape.2])]) ∧
    (pyIn "YOLO" arch = false →
      (pyIn "RetinaNet" arch = true ∨ pyIn "EfficientDet" arch = true) →
      create_inputs im info arch =
        [("image", InputVal.img im),
         ("im_info", InputVal.floats
           [((info.pad_shape.getD info.resize_shape).1 : ℚ),
            ((info.pad_shape.getD info.resize_shape).2 : ℚ), info.scale.1])]) ∧
    (pyIn "YOLO" arch = false → pyIn "RetinaNet" arch = false →
      pyIn "EfficientDet" arch = false →
      (pyIn "RCNN" arch = true ∨ pyIn "FCOS" arch = true) →
      create_inputs im info arch =
        [("image", InputVal.img im),
         ("im_info", InputVal.floats
           [((info.pad_shape.getD info.resize_shape).1 : ℚ),
            ((info.pad_shape.getD info.resize_shape).2 : ℚ), info.scale.1]),
         ("im_shape", InputVal.floats
           [(info.origin_shape.1 : ℚ), (info.origin_shape.2 : ℚ), 1])]) ∧
    (pyIn "YOLO" arch = false → pyIn "RetinaNet" arch = false →
      pyIn "EfficientDet" arch = false → pyIn "RCNN" arch = false →
      pyIn "FCOS" arch = false → pyIn "TTF" arch = true →
      create_inputs im info arch =
        [("image", InputVal.img im),
         ("scale_factor", InputVal.floats
           [info.scale.1, info.scale.2, info.scale.1, info.scale.2])]) ∧
    (pyIn "YOLO" arch = false → pyIn "RetinaNet" arch = false →
      pyIn "EfficientDet" arch = false → pyIn "RCNN" arch = false →
      pyIn "FCOS" arch = false → pyIn "TTF" arch = false →
      pyIn "SOLOv2" arch = true →
      create_inputs im info arch =
        [("image", InputVal.img im),
         ("im_info", InputVal.floats
           [(info.resize_shape.1 : ℚ), (info.resize_shape.2 : ℚ), info.scale.1])]) := by
  refine ⟨?_, ?_, ?_, ?_, ?_⟩
  · intro h1
    simp [create_inputs, h1]
  · intro h1 h2
    rcases h2 with h2 | h2 <;>
      cases hp : info.pad_shape <;>
        simp [create_inputs, h1, h2, hp]
  · intro h1 h2 h3 h4
    rcases h4 with h4 | h4 <;>
      cases hp : info.pad_shape <;>
        simp [create_inputs, h1, h2, h3, h4, hp]
  · intro h1 h2 h3 h4 h5 h6
    simp [create_inputs, h1, h2, h3, h4, h5, h6]
  · intro h1 h2 h3 h4 h5 h6 h7
    simp [create_inputs, h1, h2, h3, h4, h5, h6, h7]

/-- Claim C5 witness: concrete feeds for one member of each family
(including suffixed variant names). -/
theorem claim5_witness :
    create_inputs (0 : ℕ) infoW "YOLOv3" =
      [("image", InputVal.img 0), ("im_size", InputVal.ints [480, 640])] ∧
    create_inputs (0 : ℕ) infoW "RetinaNet" =
      [("image", InputVal.img 0), ("im_info", InputVal.floats [608, 608, 1])] ∧
    create_inputs (0 : ℕ) infoW "CascadeRCNN" =
      [("image", InputVal.img 0), ("im_info", InputVal.floats [608, 608, 1]),
       ("im_shape", InputVal.floats [480, 640, 1])] ∧
    create_inputs (0 : ℕ) infoW "TTFNet" =
      [("image", InputVal.img 0), ("scale_factor", InputVal.floats [1, 1, 1, 1])] ∧
    create_inputs (0 : ℕ) infoW "SOLOv2" =
      [("image", InputVal.img 0), ("im_info", InputVal.floats [608, 608, 1])] := by
  refine ⟨?_, ?_, ?_, ?_, ?_⟩
  · have h := (claim5_create_inputs_families (0 : ℕ) infoW "YOLOv3").1 (by decide)
    rw [h]; decide
  · have h := (claim5_create_inputs_families (0 : ℕ) infoW "RetinaNet").2.1
      (by decide) (Or.inl (by decide))
    rw [h]; decide
  · have h := (claim5_create_inputs_families (0 : ℕ) infoW "CascadeRCNN").2.2.1
      (by decide) (by decide) (by decide) (Or.inl (by decide))
    rw [h]; decide
  · have h := (claim5_create_inputs_families (0 : ℕ) infoW "TTFNet").2.2.2.1
      (by decide) (by decide) (by decide) (by decide) (by decide) (by decide)
    rw [h]; decide
  · have h := (claim5_create_inputs_families (0 : ℕ) infoW "SOLOv2").2.2.2.2
      (by decide) (by decide) (by decide) (by decide) (by decide) (by decide) (by decide)
    rw [h]; decide

/-- Claim C6: backend construction (`Detector.__init__` on the zero-copy
path, i.e. `load_predictor`) fails with an explicit error — before any
image is involved — whenever a TensorRT run mode is requested without
GPU acceleration, or whenever the unsupported trt_int8 mode is
requested; the request is never silently downgraded. -/
theorem claim6_backend_construction_rejects (cfg : Config) (run_mode : String)
    (use_gpu : Bool) (hpy : cfg.use_python_inference = false)
    (h : ((run_mode = "trt_fp32" ∨ run_mode = "trt_fp16" ∨ run_mode = "trt_int8") ∧
            use_gpu = false) ∨ run_mode = "trt_int8") :
    ∃ msg, detectorInit cfg run_mode use_gpu = Except.error msg := by
  have herr : ∃ msg, load_predictor run_mode use_gpu = Except.error msg := by
    rcases h with ⟨hm, hg⟩ | hi
    · subst hg
      have hnf : ¬(run_mode = "fluid") := by
        rcases hm with rfl | rfl | rfl <;> decide
      refine ⟨"Predict by TensorRT mode: " ++ run_mode ++ ", expect use_gpu==True", ?_⟩
      simp [load_predictor, hnf]
    · subst hi
      cases use_gpu with
      | false =>
        refine ⟨"Predict by TensorRT mode: " ++ "trt_int8" ++ ", expect use_gpu==True", ?_⟩
        simp [load_predictor]
      | true =>
        refine ⟨"TensorRT int8 mode is not supported now, please use trt_fp32 or trt_fp16 instead.", ?_⟩
        simp [load_predictor]
  obtain ⟨msg, hmsg⟩ := herr
  exact ⟨msg, by simp [detectorInit, hpy, hmsg]⟩

/-- Claim C6 witness: requesting trt_fp16 without GPU on a zero-copy
config fails at construction. -/
theorem claim6_witness :
    ∃ msg, detectorInit cfgSSD "trt_fp16" false = Except.error msg :=
  claim6_backend_construction_rejects cfgSSD "trt_fp16" false rfl
    (Or.inl ⟨Or.inr (Or.inl rfl), rfl⟩)

/-- A configuration with the landmark flag enabled, as used for the Face
architecture with landmark outputs. -/
def cfgLmk : Config :=
  { arch := "Face", preprocess_infos := [], use_python_inference := true,
    min_subgraph_size := 3, labels := [], mask_resolution := none,
    with_lmk := some true }

/-- Claim C7 counterexample: with the landmark flag enabled, the
interpreted-executor branch fetches no landmark triple while the
zero-copy branch does, so the raw output set depends on the backend
choice, not only on the `ModelConfig` flags. -/
theorem claim7_counterexample :
    fetchOutputsExecutor cfgLmk (fun n => n) ≠ fetchOutputsZeroCopy cfgLmk (fun n => n) := by
  decide

/-- Claim C7 (amended): boxes sit at output position 0 on both backends,
and the masks tensor is gated by `mask_resolution` identically on both
backends (position 1); but the landmark triple (positions 1, 2, 3) is
fetched only by the zero-copy backend when `with_lmk` is true — the
interpreted executor never fetches it. -/
theorem claim7_amended_fetch_gating {T : Type} (cfg : Config) (outs : ℕ → T) :
    (fetchOutputsExecutor cfg outs).boxes = outs 0 ∧
    (fetchOutputsZeroCopy cfg outs).boxes = outs 0 ∧
    (fetchOutputsExecutor cfg outs).masks = (fetchOutputsZeroCopy cfg outs).masks ∧
    (fetchOutputsZeroCopy cfg outs).masks =
      (if cfg.mask_resolution.isSome then some (outs 1) else none) ∧
    (fetchOutputsExecutor cfg outs).lmk = none ∧
    (fetchOutputsZeroCopy cfg outs).lmk =
      (if cfg.with_lmk = some true then some (outs 1, outs 2, outs 3) else none) :=
  ⟨rfl, rfl, rfl, rfl, rfl, rfl⟩

/-- Sample image metadata with origin shape H = 2, W = 3. -/
def infoSmall : ImInfo :=
  { origin_shape := (2, 3), resize_shape := (1, 1), pad_shape := none,
    scale := (1, 1) }

/-- A unit box row at coordinates (1, 1, 1, 1). -/
def rowUnit : BoxRow := { class_id := 0, score := 1, xmin := 1, ymin := 1, xmax := 1, ymax := 1 }

/-- Claim C8 counterexample: under an SSD config, `Detector.postprocess`
scales the coordinate columns of its `np_boxes` argument in place, so the
caller-visible array after the call differs from the raw output that was
passed in. -/
theorem claim8_counterexample :
    (postprocessCallerState cfgSSD [rowUnit] (none : Option (List Unit)) infoSmall).1
      ≠ [rowUnit] := by
  simp only [postprocessCallerState, cfgSSD, infoSmall, rowUnit]
  norm_num [scaleRow, BoxRow.mk.injEq]

/-- Claim C8 (amended): `Detector.postprocess` never writes into its
`np_masks` argument, and writes into its `np_boxes` argument exactly for
the SSD/Face architectures, where the coordinate columns are scaled in
place; for every other architecture `np_boxes` is left unmodified. -/
theorem claim8_amended_argument_mutation {M : Type} (cfg : Config)
    (np_boxes : List BoxRow) (np_masks : Option (List M)) (info : ImInfo) :
    (postprocessCallerState cfg np_boxes np_masks info).2 = np_masks ∧
    (¬(cfg.arch = "SSD" ∨ cfg.arch = "Face") →
      (postprocessCallerState cfg np_boxes np_masks info).1 = np_boxes) ∧
    ((cfg.arch = "SSD" ∨ cfg.arch = "Face") →
      (postprocessCallerState cfg np_boxes np_masks info).1 =
        np_boxes.map (scaleRow info.origin_shape)) := by
  refine ⟨rfl, ?_, ?_⟩
  · intro h
    simp [postprocessCallerState, h]
  · intro h
    simp [postprocessCallerState, h]

/-- Claim C8 witness: the amended statement evaluated on the SSD
counterexample input and on a YOLO input. -/
theorem claim8_witness :
    (postprocessCallerState cfgSSD [rowUnit] (none : Option (List Unit)) infoSmall).1
      = [rowUnit].map (scaleRow infoSmall.origin_shape) ∧
    (postprocessCallerState cfgYOLO [rowUnit] (none : Option (List Unit)) infoSmall).1
      = [rowUnit] :=
  ⟨(claim8_amended_argument_mutation cfgSSD [rowUnit] (none : Option (List Unit))
      infoSmall).2.2 (Or.inl rfl),
   (claim8_amended_argument_mutation cfgYOLO [rowUnit] (none : Option (List Unit))
      infoSmall).2.1 (by decide)⟩

/-- Claim C9: for SOLOv2, `DetectorSOLOv2.predict` (outside benchmark
mode) returns the raw (label, score, segmentation) triple entirely
unfiltered, and the returned result is identical for every threshold
value. -/
theorem claim9_solov2_unfiltered {T : Type} (outs : ℕ → T) (t u : ℚ) :
    solov2Predict outs t false =
      some { segm := outs 2, label := outs 0, score := outs 1 } ∧
    solov2Predict outs t false = solov2Predict outs u false :=
  ⟨rfl, rfl⟩

/-- Claim C10: for every architecture string containing none of the
dispatched family substrings — in particular for SSD and Face —
`create_inputs` returns only the `image` tensor. -/
theorem claim10_create_inputs_image_only {T : Type} (im : T) (info : ImInfo)
    (arch : String)
    (h1 : pyIn "YOLO" arch = false) (h2 : pyIn "RetinaNet" arch = false)
    (h3 : pyIn "EfficientDet" arch = false) (h4 : pyIn "RCNN" arch = false)
    (h5 : pyIn "FCOS" arch = false) (h6 : pyIn "TTF" arch = false)
    (h7 : pyIn "SOLOv2" arch = false) :
    create_inputs im info arch = [("image", InputVal.img im)] := by
  simp [create_inputs, h1, h2, h3, h4, h5, h6, h7]

/-- Claim C10 witness: the SSD and Face families receive only the image
tensor. -/
theorem claim10_witness :
    create_inputs (0 : ℕ) infoW "SSD" = [("image", InputVal.img 0)] ∧
    create_inputs (0 : ℕ) infoW "Face" = [("image", InputVal.img 0)] :=
  ⟨claim10_create_inputs_image_only (0 : ℕ) infoW "SSD" (by decide) (by decide)
      (by decide) (by decide) (by decide) (by decide) (by decide),
   claim10_create_inputs_image_only (0 : ℕ) infoW "Face" (by decide) (by decide)
      (by decide) (by decide) (by decide) (by decide) (by decide)⟩

end Predict
